import Mathlib

/-!
Verification development for the `zugferd-api` service (`src/main.py`).

The service is a single FastAPI endpoint that

* checks the supplied `tax_amount` against `round(total_amount * 0.19, 2)`
  with an absolute tolerance of `0.01`,
* builds a ZUGFeRD 2.1 XML element tree with `lxml.etree` and serializes it
  (UTF-8, explicit XML declaration, fixed namespace prefix map),
* draws a base PDF and embeds the XML bytes as the attachment
  `ZUGFeRD-invoice.xml` with MIME type `text/xml` via PyMuPDF,
* wraps the whole request in `try/except Exception`, re-raising every
  exception (including the explicitly raised 400 `HTTPException`) as a
  500 `HTTPException` whose detail is `str(e)`.

Modelling conventions:

* Python `float` amounts are modelled as exact decimal rationals `ℚ`;
  Python `round(x, n)` rounds half to even, `f"{x:.2f}"` renders with
  exactly two fraction digits.  This idealization of the program's binary64
  arithmetic is exact at every concrete input appearing below except within
  one double ulp of the tax-tolerance boundary; the constants `fp019`,
  `fp1901` and `fp001` model the doubles directly at the one boundary input
  where the two computations decide differently.
* The arithmetic the endpoint performs is written through the helpers
  `qmul`, `qsub`, `qabs` and `pyRound2` below, which work on the
  numerator/denominator representation so that they evaluate inside the
  kernel; each is accompanied by a lemma identifying it with the ordinary
  `ℚ` operation, and all claim statements use the ordinary operations.
* `lxml` raises `ValueError` ("All strings must be XML compatible: ...")
  when a text assignment contains a character outside the XML character
  range; the serializer model collects every text placed on the tree and
  fails with that message when one is unsafe.
* External library calls (`reportlab` canvas, PyMuPDF `set_pdfa_metadata`
  and `embfile_add`) are modelled as operations on an explicit container
  record holding exactly the arguments the source passes to them.
-/

/-- Round-half-even integer division helper: `rheDiv n d` is the integer
nearest to `n / d` (with `d > 0`), ties going to the even integer, exactly
the rounding Python `round` uses.  `f` is the floor of `n / d`; the
fractional part `(n - f * d) / d` is compared with `1 / 2` by
cross-multiplication. -/
def rheDiv (n : ℤ) (d : ℕ) : ℤ :=
  let f : ℤ := n.fdiv d
  let r2 : ℤ := 2 * (n - f * d)
  if r2 < (d : ℤ) then f
  else if (d : ℤ) < r2 then f + 1
  else if f % 2 = 0 then f else f + 1

/-- Kernel-computable product of two rationals; see `qmul_eq`. -/
def qmul (a b : ℚ) : ℚ := mkRat (a.num * b.num) (a.den * b.den)

/-- Kernel-computable difference of two rationals; see `qsub_eq`. -/
def qsub (a b : ℚ) : ℚ := mkRat (a.num * b.den - b.num * a.den) (a.den * b.den)

/-- Kernel-computable absolute value of a rational; see `qabs_eq`. -/
def qabs (a : ℚ) : ℚ := mkRat a.num.natAbs a.den

theorem qmul_eq (a b : ℚ) : qmul a b = a * b := (Rat.mul_eq_mkRat a b).symm

theorem qsub_eq (a b : ℚ) : qsub a b = a - b := (Rat.sub_def' a b).symm

theorem qabs_eq (a : ℚ) : qabs a = |a| := by
  rcases le_or_lt 0 a.num with h | h
  · rw [qabs, Int.natAbs_of_nonneg h, Rat.mkRat_self,
      abs_of_nonneg (Rat.num_nonneg.mp h)]
  · rw [qabs, Int.ofNat_natAbs_of_nonpos (le_of_lt h), ← Rat.neg_mkRat,
      Rat.mkRat_self, abs_of_neg (Rat.num_neg.mp h)]

/-- Python `round(x, 2)`: round half to even at two decimal places.  The
value is `(rheDiv of x * 100) / 100`; stated through `pyRound2_eq` as the
ordinary rational expression. -/
def pyRound2 (q : ℚ) : ℚ :=
  mkRat (rheDiv (qmul q 100).num (qmul q 100).den) 100

/-- Round half to even of a rational to an integer, the integer-level view
of `rheDiv` on the numerator and denominator. -/
def roundHalfEvenInt (q : ℚ) : ℤ := rheDiv q.num q.den

theorem pyRound2_eq (q : ℚ) :
    pyRound2 q = (roundHalfEvenInt (q * 100) : ℚ) / 100 := by
  rw [pyRound2, roundHalfEvenInt, qmul_eq, Rat.mkRat_eq_divInt,
    Rat.divInt_eq_div]
  norm_num

/-- Decimal digits of `n`, least significant first; the first argument is
structural fuel (any value `≥ n` suffices, `n + 1` is always enough), so
the definition evaluates inside the kernel. -/
def digitsRev (fuel n : ℕ) : List ℕ :=
  match fuel with
  | 0 => []
  | fuel + 1 => if n < 10 then [n] else n % 10 :: digitsRev fuel (n / 10)

/-- Standard decimal rendering of a natural number, the model of Python
`str` on a nonnegative integer. -/
def natDecimal (n : ℕ) : String :=
  String.mk ((digitsRev (n + 1) n).reverse.map Nat.digitChar)

/-- Python `f-string` formatting `f"{x:.2f}"`: the value rounded half to
even at two decimals, rendered with a sign, the integer part, a point and
exactly two fraction digits (Python renders a negative zero as `-0.00`). -/
def fmt2 (q : ℚ) : String :=
  let c : ℤ := rheDiv (qmul q 100).num (qmul q 100).den
  let sign : String := if c < 0 ∨ (c = 0 ∧ q.num < 0) then "-" else ""
  sign ++ natDecimal (c.natAbs / 100) ++ "." ++
    String.mk [Nat.digitChar (c.natAbs % 100 / 10), Nat.digitChar (c.natAbs % 100 % 10)]

/-- Model of the Python expression `s.replace("-", "")` used on the date
strings: with a one-character pattern and empty replacement this removes
every dash. -/
def stripDashes (s : String) : String :=
  String.mk (s.data.filter (fun c => c ≠ '-'))

/-- Characters `lxml` accepts in text content: the XML 1.0 `Char`
production (tab, newline, carriage return, and everything from `U+0020`
up, excluding the non-characters `U+FFFE`/`U+FFFF`; `Char` cannot encode
surrogates).  Assigning any other character raises `ValueError`. -/
def xmlSafeChar (c : Char) : Bool :=
  c = '\t' || c = '\n' || c = '\r' ||
    (0x20 ≤ c.toNat && c.toNat ≤ 0xD7FF) ||
    (0xE000 ≤ c.toNat && c.toNat ≤ 0xFFFD) ||
    0x10000 ≤ c.toNat

/-- A string is XML-safe when every character is. -/
def stringXmlSafe (s : String) : Bool := s.data.all xmlSafeChar

/-- Message of the `ValueError` that `lxml` raises on an unsafe text
assignment. -/
def lxmlCharMsg : String :=
  "All strings must be XML compatible: Unicode or ASCII, no NULL bytes or control characters"

/-- Line-item request model (`class Item(BaseModel)` in `src/main.py`):
a description, a price and a quantity defaulting to `1.0`. -/
structure Item where
  description : String
  price : ℚ
  quantity : ℚ := 1
deriving DecidableEq

/-- Invoice request model (`class InvoiceData(BaseModel)` in
`src/main.py`).  Pydantic validates only the shape and the field types;
every value of this structure is an accepted request body. -/
structure InvoiceData where
  customer_name : String
  customer_address : String
  country_code : String
  vat_id : String
  invoice_number : String
  invoice_date : String
  due_date : String
  items : List Item
  total_amount : ℚ
  tax_amount : ℚ
deriving DecidableEq

/-- Qualified XML name: a namespace URI (empty for unqualified attributes
such as `format`) and a local name.  The Python source writes these in
Clark notation; the pair carries the same information. -/
structure QName where
  ns : String
  localName : String
deriving DecidableEq

/-- An `lxml.etree` element: qualified tag, attributes, optional text and
child elements, in document order. -/
inductive XElem where
  | mk (name : QName) (attrs : List (QName × String)) (text : Option String)
      (children : List XElem)

/-- Tag of an element. -/
def XElem.name : XElem → QName
  | .mk n _ _ _ => n

/-- Attribute list of an element. -/
def XElem.attrs : XElem → List (QName × String)
  | .mk _ a _ _ => a

/-- Text content of an element. -/
def XElem.text : XElem → Option String
  | .mk _ _ t _ => t

/-- Children of an element, in document order. -/
def XElem.children : XElem → List XElem
  | .mk _ _ _ cs => cs

mutual

/-- Every text assigned on the tree, in document order: exactly the
strings the Python source assigns to `.text` (each such assignment is
where `lxml` checks XML-compatibility). -/
def XElem.allTexts : XElem → List String
  | .mk _ _ t cs => t.toList ++ allTextsList cs

/-- Texts of a list of elements. -/
def allTextsList : List XElem → List String
  | [] => []
  | c :: cs => c.allTexts ++ allTextsList cs

end

/-- Local names of the elements that carry monetary amounts in the
generated document: the per-line `ChargeAmount` and the settlement
`CalculatedAmount` and `BasisAmount`. -/
def monetaryLocals : List String := ["ChargeAmount", "CalculatedAmount", "BasisAmount"]

mutual

/-- Texts of the monetary elements of the tree, in document order. -/
def XElem.monetaryTexts : XElem → List String
  | .mk n _ t cs =>
    (if n.localName ∈ monetaryLocals then t.toList else []) ++ monetaryTextsList cs

/-- Monetary texts of a list of elements. -/
def monetaryTextsList : List XElem → List String
  | [] => []
  | c :: cs => c.monetaryTexts ++ monetaryTextsList cs

end

/-- Namespace URI bound to prefix `rsm`. -/
def nsRSM : String := "urn:un:unece:uncefact:data:standard:CrossIndustryInvoice:100"

/-- Namespace URI bound to prefix `ram`. -/
def nsRAM : String :=
  "urn:un:unece:uncefact:data:standard:ReusableAggregateBusinessInformationEntity:100"

/-- Namespace URI bound to prefix `udt`. -/
def nsUDT : String := "urn:un:unece:uncefact:data:standard:UnqualifiedDataType:100"

/-- Namespace URI bound to prefix `xsi`. -/
def nsXSI : String := "http://www.w3.org/2001/XMLSchema-instance"

/-- The fixed prefix map (`NSMAP` in the source), in insertion order. -/
def NSMAP : List (String × String) :=
  [("rsm", nsRSM), ("ram", nsRAM), ("udt", nsUDT), ("xsi", nsXSI)]

/-- Leaf element with text content, as built by `ET.SubElement(...).text = s`. -/
def textElem (ns localName s : String) : XElem := .mk ⟨ns, localName⟩ [] (some s) []

/-- The `ExchangedDocumentContext` block (step 1 in the source): the
guideline parameter carrying the fixed ZUGFeRD 2.1 basic profile URN. -/
def contextBlock : XElem :=
  .mk ⟨nsRSM, "ExchangedDocumentContext"⟩ [] none [
    .mk ⟨nsRAM, "GuidelineSpecifiedDocumentContextParameter"⟩ [] none [
      textElem nsRAM "ID" "urn:zugferd.de:2p1:basic"]]

/-- The `ExchangedDocument` header block (step 2): invoice number, fixed
type code `380`, fixed name `RECHNUNG`, and the issue date as compact
digits with format code `102`. -/
def headerBlock (invoice : InvoiceData) : XElem :=
  .mk ⟨nsRSM, "ExchangedDocument"⟩ [] none [
    textElem nsRAM "ID" invoice.invoice_number,
    textElem nsRAM "TypeCode" "380",
    textElem nsRAM "Name" "RECHNUNG",
    .mk ⟨nsRAM, "IssueDateTime"⟩ [] none [
      .mk ⟨nsUDT, "DateTimeString"⟩ [(⟨"", "format"⟩, "102")]
        (some (stripDashes invoice.invoice_date)) []]]

/-- The `ApplicableHeaderTradeAgreement` block (step 3): the hard-coded
seller party followed by the buyer party taken from the request. -/
def agreementBlock (invoice : InvoiceData) : XElem :=
  .mk ⟨nsRAM, "ApplicableHeaderTradeAgreement"⟩ [] none [
    .mk ⟨nsRAM, "SellerTradeParty"⟩ [] none [
      textElem nsRAM "Name" "Your Company Name",
      textElem nsRAM "SpecifiedLegalOrganization" "Your Company Legal Info"],
    .mk ⟨nsRAM, "BuyerTradeParty"⟩ [] none [
      textElem nsRAM "Name" invoice.customer_name,
      .mk ⟨nsRAM, "PostalTradeAddress"⟩ [] none [
        textElem nsRAM "LineOne" invoice.customer_address,
        textElem nsRAM "CountryID" invoice.country_code]]]

/-- One `IncludedSupplyChainTradeLineItem` block (step 4): the 1-based
line number as text of the line document element, the product name, and
the unit price formatted to two fraction digits. -/
def lineBlock (idx : ℕ) (item : Item) : XElem :=
  .mk ⟨nsRAM, "IncludedSupplyChainTradeLineItem"⟩ [] none [
    textElem nsRAM "AssociatedDocumentLineDocument" (natDecimal idx),
    .mk ⟨nsRAM, "SpecifiedTradeProduct"⟩ [] none [
      textElem nsRAM "Name" item.description],
    .mk ⟨nsRAM, "SpecifiedLineTradeAgreement"⟩ [] none [
      .mk ⟨nsRAM, "NetPriceProductTradePrice"⟩ [] none [
        textElem nsRAM "ChargeAmount" (fmt2 item.price)]]]

/-- Line blocks for the items starting at index `idx`, the model of
`for idx, item in enumerate(invoice.items, start=1)`. -/
def lineBlocksFrom (idx : ℕ) : List Item → List XElem
  | [] => []
  | item :: rest => lineBlock idx item :: lineBlocksFrom (idx + 1) rest

/-- The `ApplicableTradeTax` sub-block (step 5): calculated amount, type
code `VAT`, basis amount `total_amount - tax_amount`, category code `S`
and the fixed rate string `19.00`. -/
def taxBlock (invoice : InvoiceData) : XElem :=
  .mk ⟨nsRAM, "ApplicableTradeTax"⟩ [] none [
    textElem nsRAM "CalculatedAmount" (fmt2 invoice.tax_amount),
    textElem nsRAM "TypeCode" "VAT",
    textElem nsRAM "BasisAmount" (fmt2 (qsub invoice.total_amount invoice.tax_amount)),
    textElem nsRAM "CategoryCode" "S",
    textElem nsRAM "RateApplicablePercent" "19.00"]

/-- The `SpecifiedTradePaymentTerms` sub-block (step 6): the due date as
compact digits with format code `102`. -/
def paymentTermsBlock (invoice : InvoiceData) : XElem :=
  .mk ⟨nsRAM, "SpecifiedTradePaymentTerms"⟩ [] none [
    .mk ⟨nsRAM, "DueDateDateTime"⟩ [] none [
      .mk ⟨nsUDT, "DateTimeString"⟩ [(⟨"", "format"⟩, "102")]
        (some (stripDashes invoice.due_date)) []]]

/-- The `ApplicableHeaderTradeSettlement` block (steps 5 and 6): currency
code, then the tax sub-block, then the payment-terms sub-block. -/
def settlementBlock (invoice : InvoiceData) : XElem :=
  .mk ⟨nsRAM, "ApplicableHeaderTradeSettlement"⟩ [] none [
    textElem nsRAM "TaxCurrencyCode" "EUR",
    taxBlock invoice,
    paymentTermsBlock invoice]

/-- The `SupplyChainTradeTransaction` block: trade agreement, then one
line block per item, then the settlement block, in the order the source
appends them. -/
def transactionBlock (invoice : InvoiceData) : XElem :=
  .mk ⟨nsRSM, "SupplyChainTradeTransaction"⟩ []
    none (agreementBlock invoice :: (lineBlocksFrom 1 invoice.items ++ [settlementBlock invoice]))

/-- The root attribute `xsi:schemaLocation` set in the source. -/
def schemaLocationAttr : QName × String :=
  (⟨nsXSI, "schemaLocation"⟩,
    "urn:un:unece:uncefact:data:standard:CrossIndustryInvoice:100 ../ZUGFeRD2p1.xsd")

/-- The element tree built by `generate_zugferd_xml` before serialization:
root `rsm:CrossIndustryInvoice` with the context, header and transaction
blocks in source order. -/
def buildTree (invoice : InvoiceData) : XElem :=
  .mk ⟨nsRSM, "CrossIndustryInvoice"⟩ [schemaLocationAttr] none
    [contextBlock, headerBlock invoice, transactionBlock invoice]

/-- Escape of one character in text content: `lxml` escapes the markup
characters ampersand, less-than and greater-than. -/
def escTextChar : Char → List Char
  | '&' => "&amp;".data
  | '<' => "&lt;".data
  | '>' => "&gt;".data
  | c => [c]

/-- Escaped text content. -/
def escText (s : String) : String := String.mk (s.data.flatMap escTextChar)

/-- Escape of one character in an attribute value: as in text content,
plus the double quote used as the value delimiter. -/
def escAttrChar : Char → List Char
  | '&' => "&amp;".data
  | '<' => "&lt;".data
  | '>' => "&gt;".data
  | '\x22' => "&quot;".data
  | c => [c]

/-- Escaped attribute value. -/
def escAttrVal (s : String) : String := String.mk (s.data.flatMap escAttrChar)

/-- Prefix the serializer uses for a namespace URI, resolved in the fixed
`NSMAP`. -/
def prefixOfNs (uri : String) : String :=
  (((NSMAP.find? (fun p => p.2 = uri)).map (fun p => p.1)).getD "")

/-- Rendered qualified name: `p:local` for a mapped namespace, the bare
local name for unqualified attributes. -/
def renderQName (q : QName) : String :=
  if q.ns = "" then q.localName else prefixOfNs q.ns ++ ":" ++ q.localName

/-- The namespace declarations emitted on the root element, one
`xmlns:p="uri"` per `NSMAP` entry in insertion order. -/
def nsDeclString : String :=
  NSMAP.foldl (fun acc p => acc ++ " xmlns:" ++ p.1 ++ "=\x22" ++ p.2 ++ "\x22") ""

/-- Rendered attribute list, one leading space before each `name="value"`. -/
def renderAttrs (attrs : List (QName × String)) : String :=
  attrs.foldl (fun acc a => acc ++ " " ++ renderQName a.1 ++ "=\x22" ++ escAttrVal a.2 ++ "\x22") ""

/-- Indentation of the pretty printer: two spaces per nesting level. -/
def indentStr (depth : ℕ) : String := String.mk (List.replicate (2 * depth) ' ')

mutual

/-- Serialization of one element at the given depth, following the
`lxml` pretty printer: a leaf with text on one line, an element with
children opened and closed on their own indented lines; the namespace
declarations appear on the root (depth 0) only. -/
def serializeElem (depth : ℕ) : XElem → String
  | .mk n attrs txt cs =>
    let head : String := indentStr depth ++ "<" ++ renderQName n ++
      (if depth = 0 then nsDeclString else "") ++ renderAttrs attrs
    match txt, cs with
    | some t, [] => head ++ ">" ++ escText t ++ "</" ++ renderQName n ++ ">\n"
    | none, [] => head ++ "/>\n"
    | _, _ =>
      head ++ ">\n" ++ serializeList (depth + 1) cs ++
        indentStr depth ++ "</" ++ renderQName n ++ ">\n"

/-- Serialization of a list of sibling elements. -/
def serializeList (depth : ℕ) : List XElem → String
  | [] => ""
  | c :: cs => serializeElem depth c ++ serializeList depth cs

end

/-- The XML declaration `lxml` writes for
`tostring(..., encoding="utf-8", xml_declaration=True)`: single-quoted,
echoing the requested encoding. -/
def xmlDeclaration : String := "<?xml version=\x271.0\x27 encoding=\x27utf-8\x27?>\n"

/-- Full serialized document: declaration followed by the root element.
The Python source decodes the UTF-8 bytes back to a string; the byte
output is the UTF-8 encoding of this string. -/
def serializeDoc (root : XElem) : String := xmlDeclaration ++ serializeElem 0 root

/-- Model of `generate_zugferd_xml`: build the tree and serialize it.
`lxml` raises `ValueError` at the first `.text` assignment whose string
contains an XML-incompatible character, so the function fails with that
message exactly when some assigned text is unsafe, and otherwise returns
the serialized document. -/
def generate_zugferd_xml (invoice : InvoiceData) : Except String String :=
  let root := buildTree invoice
  if root.allTexts.all stringXmlSafe then .ok (serializeDoc root)
  else .error lxmlCharMsg

/-- An embedded file as added by the PyMuPDF call
`pdf.embfile_add(name, buffer, filename=..., uf=..., desc=..., mime=...)`
in the source.  The call passes no associated-file relationship, so the
model records `afRelationship = none`; setting `AFRelationship = "Data"`
would require a separate step the source never performs. -/
structure EmbeddedFile where
  name : String
  data : String
  filename : String
  ufilename : String
  desc : String
  mime : String
  afRelationship : Option String
deriving DecidableEq

/-- The PDF/A metadata set by the `pdf.set_pdfa_metadata(...)` call. -/
structure PdfaMeta where
  part : ℕ
  conformance : String
  output_intent : String
  creator : String
  title : String
deriving DecidableEq

/-- The PDF document state: descriptive metadata from the reportlab
canvas, optional PDF/A metadata, and the list of embedded files.  The
drawn page content is opaque page bytes outside every claim and is not
modelled. -/
structure PdfContainer where
  title : String
  author : String
  subject : String
  pdfaMeta : Option PdfaMeta
  attachments : List EmbeddedFile
deriving DecidableEq

/-- Model of `generate_pdf_with_zugferd`: create the base PDF with its
canvas metadata and no attachments, generate the XML (any `ValueError`
from `lxml` propagates), set the PDF/A metadata and embed the XML bytes
under the fixed filename with MIME type `text/xml`. -/
def generate_pdf_with_zugferd (invoice : InvoiceData) : Except String PdfContainer :=
  let base : PdfContainer :=
    { title := "ZUGFeRD Invoice"
      author := "Your Company"
      subject := "Invoice " ++ invoice.invoice_number
      pdfaMeta := none
      attachments := [] }
  match generate_zugferd_xml invoice with
  | .error e => .error e
  | .ok xml_data =>
    let pdf : PdfContainer :=
      { base with
        pdfaMeta := some
          { part := 3, conformance := "B", output_intent := "sRGB",
            creator := "Your Company",
            title := "Invoice " ++ invoice.invoice_number } }
    let pdf : PdfContainer :=
      { pdf with
        attachments := pdf.attachments ++
          [{ name := "ZUGFeRD-invoice.xml"
             data := xml_data
             filename := "/ZUGFeRD-invoice.xml"
             ufilename := "/ZUGFeRD-invoice.xml"
             desc := "ZUGFeRD 2.1 Basic Invoice"
             mime := "text/xml"
             afRelationship := none }] }
    .ok pdf

/-- A Python exception raised inside the endpoint's `try` block: the
explicitly raised `fastapi.HTTPException` or the `ValueError` from
`lxml`. -/
inductive PyExn where
  | httpExc (status : ℕ) (detail : String)
  | valueError (msg : String)
deriving DecidableEq

/-- Python `str(e)` for the exceptions of `PyExn`: starlette renders an
`HTTPException` as `"{status_code}: {detail}"`, and `str` of a
`ValueError` is its message. -/
def strOfExn : PyExn → String
  | .httpExc status detail => natDecimal status ++ ": " ++ detail
  | .valueError msg => msg

/-- A successful endpoint response: the PDF body, the media type and the
content-disposition header. -/
structure ApiResponse where
  body : PdfContainer
  media_type : String
  contentDisposition : String
deriving DecidableEq

/-- Detail string of the tax-mismatch `HTTPException`:
`f"Tax amount mismatch. Expected €{expected_tax:.2f} for 19% VAT"`.
It names the expected amount only; the actual amount does not appear. -/
def taxMismatchDetail (expected : ℚ) : String :=
  "Tax amount mismatch. Expected €" ++ fmt2 expected ++ " for 19% VAT"

/-- The expected tax recomputed by the endpoint:
`round(data.total_amount * 0.19, 2)`, in the exact-decimal idealization
(the multiplier is the decimal `19/100` and the rounding is decimal
round-half-even).  The running program multiplies by the double `fp019`
and rounds the double product; the two computations agree at every
concrete input used below except the tolerance boundary captured by
`fp1901`. -/
def expected_tax (d : InvoiceData) : ℚ := pyRound2 (qmul d.total_amount (mkRat 19 100))

theorem expected_tax_eq (d : InvoiceData) :
    expected_tax d = pyRound2 (d.total_amount * (19 / 100)) := by
  rw [expected_tax, qmul_eq, Rat.mkRat_eq_divInt, Rat.divInt_eq_div]
  norm_num

/-- Exact rational value of the IEEE 754 binary64 double nearest `0.19`,
the literal the program multiplies the total by at runtime:
`3422735716801577 / 2 ^ 54 = 0.19000000000000000069...`, slightly above
the decimal `19/100`. -/
def fp019 : ℚ := mkRat 3422735716801577 18014398509481984

/-- Exact rational value of the binary64 double nearest `19.01`, the
value a request supplying `tax_amount = 19.01` holds at runtime:
`5350839307269571 / 2 ^ 48 = 19.010000000000001563...`, slightly above
the decimal `1901/100`. -/
def fp1901 : ℚ := mkRat 5350839307269571 281474976710656

/-- Exact rational value of the binary64 double nearest `0.01`, the
tolerance literal of the comparison `abs(...) > 0.01`:
`5764607523034235 / 2 ^ 59 = 0.01000000000000000020...`. -/
def fp001 : ℚ := mkRat 5764607523034235 576460752303423488

/-- The `try` block of the endpoint `generate_validated_invoice`: raise a
400 `HTTPException` when `abs(tax_amount - expected_tax) > 0.01`,
otherwise build the PDF (a `ValueError` from `lxml` propagates as an
exception) and return it with the PDF media type and a
content-disposition derived from the invoice number.  The comparison is
taken over the exact decimal amounts; within one double ulp of the
boundary the program's binary64 comparison can differ (see `fp1901` and
`fp001`), and every concrete input driven through this function below
stays clear of that band. -/
def tryBlock (d : InvoiceData) : Except PyExn ApiResponse :=
  if mkRat 1 100 < qabs (qsub d.tax_amount (expected_tax d)) then
    .error (.httpExc 400 (taxMismatchDetail (expected_tax d)))
  else
    match generate_pdf_with_zugferd d with
    | .error msg => .error (.valueError msg)
    | .ok pdf =>
      .ok { body := pdf
            media_type := "application/pdf"
            contentDisposition := "attachment; filename=invoice_" ++ d.invoice_number ++ ".pdf" }

/-- Model of the endpoint `generate_validated_invoice`: the `except
Exception` clause catches every exception raised in the `try` block —
including the explicitly raised 400 `HTTPException`, which is a subclass
of `Exception` — and re-raises `HTTPException(status_code=500,
detail=str(e))`, so every failure reaches the caller with status 500. -/
def generate_validated_invoice (d : InvoiceData) : Except (ℕ × String) ApiResponse :=
  match tryBlock d with
  | .ok r => .ok r
  | .error e => .error (500, strOfExn e)

/-- Status code of an endpoint result, `none` on success. -/
def errStatus : Except (ℕ × String) ApiResponse → Option ℕ
  | .error e => some e.1
  | .ok _ => none

/-- HTTP client-error class: the 4xx status codes. -/
def isClientError (status : ℕ) : Bool := 400 ≤ status && status < 500

deriving instance DecidableEq for Except

/-- Line identifier of a line-item block: the text of its first child
(the `AssociatedDocumentLineDocument` element). -/
def lineIdOf (e : XElem) : Option String :=
  e.children.head?.bind (fun c => c.text)

/-- A string has exactly two fraction digits: it is an integer part
without a decimal point, followed by a point and exactly two digits. -/
def TwoFracDigits (s : String) : Prop :=
  ∃ pre d₁ d₂, s = pre ++ "." ++ String.mk [d₁, d₂] ∧
    d₁.isDigit = true ∧ d₂.isDigit = true ∧ '.' ∉ pre.data

/-- The part of a line item that `generate_zugferd_xml` reads: the
description and the price (the quantity is used only for the drawn PDF
page, never for the XML). -/
def Item.xmlView (it : Item) : String × ℚ := (it.description, it.price)

/-- The part of a request that `generate_zugferd_xml` reads: every field
except `vat_id` and the item quantities. -/
def InvoiceData.xmlView (d : InvoiceData) :
    String × String × String × String × String × String × List (String × ℚ) × ℚ × ℚ :=
  (d.customer_name, d.customer_address, d.country_code, d.invoice_number,
    d.invoice_date, d.due_date, d.items.map Item.xmlView, d.total_amount, d.tax_amount)

/-- The end-to-end scenario request of the specification: one line item
`Consulting` at price 100, total 119.00 and the consistent tax 22.61. -/
def invConsulting : InvoiceData :=
  { customer_name := "Max Mustermann"
    customer_address := "Musterstrasse 1"
    country_code := "DE"
    vat_id := "DE123456789"
    invoice_number := "INV-0001"
    invoice_date := "2024-01-02"
    due_date := "2024-02-02"
    items := [{ description := "Consulting", price := 100, quantity := 1 }]
    total_amount := 119
    tax_amount := mkRat 2261 100 }

/-- The same scenario with `tax_amount = 10.00`, failing the
tax-consistency check. -/
def invTaxTen : InvoiceData := { invConsulting with tax_amount := 10 }

/-- The tax boundary request: total 100.00 with tax 19.01.  Over the true
decimal amounts the difference from the expected tax 19.00 is exactly
0.01, within the tolerance; the running program, computing in binary64
doubles, decides this very input differently (see `fp1901`). -/
def invTax1901 : InvoiceData :=
  { invConsulting with total_amount := 100, tax_amount := mkRat 1901 100 }

/-- A request that violates every field-level condition of the claimed
validation at once: empty required strings, an unparseable issue date,
and a line item with a negative price and a non-positive quantity, while
passing the tax check (`0 * 0.19 = 0 = tax_amount`). -/
def invBadFields : InvoiceData :=
  { customer_name := ""
    customer_address := ""
    country_code := ""
    vat_id := ""
    invoice_number := ""
    invoice_date := "banana"
    due_date := "2020-01-01"
    items := [{ description := "", price := mkRat (-5) 1, quantity := 0 }]
    total_amount := 0
    tax_amount := 0 }

/-- A request with an empty line-item list, passing the tax check. -/
def invNoItems : InvoiceData :=
  { invBadFields with
    items := []
    invoice_date := "2024-05-10" }

/-- A request with parseable dates whose due date precedes the issue
date, passing the tax check. -/
def invDueBeforeIssue : InvoiceData :=
  { invConsulting with
    invoice_date := "2024-05-10"
    due_date := "2020-01-01"
    total_amount := 0
    tax_amount := 0 }

/-- A request whose customer name contains the control character
`U+0001`, which is outside the XML character range. -/
def invCtrlChar : InvoiceData := { invConsulting with customer_name := "A\x01B" }

/-- Two requests that differ only in `vat_id` and in an item quantity. -/
def invVatQtyA : InvoiceData := invConsulting

/-- Second of the two requests differing only in `vat_id` and quantity. -/
def invVatQtyB : InvoiceData :=
  { invConsulting with
    vat_id := "DE000000000"
    items := [{ description := "Consulting", price := 100, quantity := mkRat 7 2 }] }

/-- The container value `generate_pdf_with_zugferd` produces for
`invConsulting`. -/
def pdfConsulting : PdfContainer :=
  { title := "ZUGFeRD Invoice"
    author := "Your Company"
    subject := "Invoice " ++ invConsulting.invoice_number
    pdfaMeta := some
      { part := 3, conformance := "B", output_intent := "sRGB",
        creator := "Your Company",
        title := "Invoice " ++ invConsulting.invoice_number }
    attachments := [{ name := "ZUGFeRD-invoice.xml"
                      data := serializeDoc (buildTree invConsulting)
                      filename := "/ZUGFeRD-invoice.xml"
                      ufilename := "/ZUGFeRD-invoice.xml"
                      desc := "ZUGFeRD 2.1 Basic Invoice"
                      mime := "text/xml"
                      afRelationship := none }] }

/-- The constant opening of every serialized document: the XML
declaration followed by the root start tag with its namespace
declarations and the `xsi:schemaLocation` attribute. -/
def docOpenString : String :=
  xmlDeclaration ++ (indentStr 0 ++ "<" ++ renderQName ⟨nsRSM, "CrossIndustryInvoice"⟩ ++
    nsDeclString ++ renderAttrs [schemaLocationAttr] ++ ">\n")

/-- A request with three line items of unrelated prices and quantities. -/
def invThreeItems : InvoiceData :=
  { invConsulting with
    items := [
      { description := "Alpha", price := mkRat 1 2, quantity := 5 },
      { description := "Beta", price := 20, quantity := 1 },
      { description := "Gamma", price := 0, quantity := 3 }] }

theorem string_data_append (s t : String) : (s ++ t).data = s.data ++ t.data := rfl

theorem string_mk_data (l : List Char) : (String.mk l).data = l := rfl

theorem isInfix_append_ext {x A : List Char} (h : x <:+: A) (B : List Char) :
    x <:+: A ++ B := by
  obtain ⟨s, t, rfl⟩ := h
  exact ⟨s, t ++ B, by simp⟩

theorem digitsRev_lt_ten (fuel n : ℕ) : ∀ d ∈ digitsRev fuel n, d < 10 := by
  induction fuel generalizing n with
  | zero => intro d hd; simp [digitsRev] at hd
  | succ fuel ih =>
    intro d hd
    rw [digitsRev] at hd
    by_cases h : n < 10
    · simp [h] at hd
      omega
    · simp [h] at hd
      rcases hd with rfl | hd
      · exact Nat.mod_lt _ (by norm_num)
      · exact ih _ _ hd

theorem digitChar_facts {d : ℕ} (h : d < 10) :
    (Nat.digitChar d).isDigit = true ∧ Nat.digitChar d ≠ '.' := by
  interval_cases d <;> exact ⟨by decide, by decide⟩

theorem natDecimal_no_dot (n : ℕ) : '.' ∉ (natDecimal n).data := by
  intro hmem
  rw [natDecimal, string_mk_data] at hmem
  obtain ⟨d, hd, hEq⟩ := List.mem_map.mp hmem
  exact (digitChar_facts (digitsRev_lt_ten _ _ d (List.mem_reverse.mp hd))).2 hEq

theorem twoFracDigits_fmt2 (q : ℚ) : TwoFracDigits (fmt2 q) := by
  have h1 : (rheDiv (qmul q 100).num (qmul q 100).den).natAbs % 100 / 10 < 10 := by
    have := Nat.mod_lt (rheDiv (qmul q 100).num (qmul q 100).den).natAbs
      (show 0 < 100 by norm_num)
    omega
  have h2 : (rheDiv (qmul q 100).num (qmul q 100).den).natAbs % 100 % 10 < 10 :=
    Nat.mod_lt _ (by norm_num)
  refine ⟨(if rheDiv (qmul q 100).num (qmul q 100).den < 0 ∨
        (rheDiv (qmul q 100).num (qmul q 100).den = 0 ∧ q.num < 0) then "-" else "") ++
      natDecimal ((rheDiv (qmul q 100).num (qmul q 100).den).natAbs / 100),
    Nat.digitChar ((rheDiv (qmul q 100).num (qmul q 100).den).natAbs % 100 / 10),
    Nat.digitChar ((rheDiv (qmul q 100).num (qmul q 100).den).natAbs % 100 % 10),
    rfl, (digitChar_facts h1).1, (digitChar_facts h2).1, ?_⟩
  intro hmem
  rw [string_data_append] at hmem
  rcases List.mem_append.mp hmem with hs | hn
  · by_cases hc : rheDiv (qmul q 100).num (qmul q 100).den < 0 ∨
        (rheDiv (qmul q 100).num (qmul q 100).den = 0 ∧ q.num < 0)
    · rw [if_pos hc] at hs
      simp at hs
    · rw [if_neg hc] at hs
      simp at hs
  · exact natDecimal_no_dot _ hn

theorem mkRat_one_hundred : (mkRat 1 100 : ℚ) = 1 / 100 := by
  rw [Rat.mkRat_eq_divInt, Rat.divInt_eq_div]
  norm_num

theorem taxCond_iff (d : InvoiceData) :
    (mkRat 1 100 < qabs (qsub d.tax_amount (expected_tax d))) ↔
      1 / 100 < |d.tax_amount - expected_tax d| := by
  rw [qabs_eq, qsub_eq, mkRat_one_hundred]

theorem lineBlocksFrom_map_localName (idx : ℕ) (items : List Item) :
    (lineBlocksFrom idx items).map (fun e => e.name.localName) =
      items.map (fun _ => "IncludedSupplyChainTradeLineItem") := by
  induction items generalizing idx with
  | nil => rfl
  | cons it rest ih =>
    rw [lineBlocksFrom, List.map_cons, List.map_cons, ih]
    rfl

theorem lineBlocksFrom_lineId (items : List Item) (idx i : ℕ) (h : i < items.length) :
    ((lineBlocksFrom idx items)[i]?).bind lineIdOf = some (natDecimal (idx + i)) := by
  induction items generalizing idx i with
  | nil => simp at h
  | cons it rest ih =>
    cases i with
    | zero =>
      simp [lineBlocksFrom, lineIdOf, lineBlock, XElem.children, XElem.text, textElem]
    | succ j =>
      have h2 : j < rest.length := by
        simpa using Nat.lt_of_succ_lt_succ h
      have hj := ih (idx + 1) j h2
      have harith : idx + 1 + j = idx + (j + 1) := by omega
      simpa [lineBlocksFrom, harith] using hj

theorem lineBlocksFrom_length (idx : ℕ) (items : List Item) :
    (lineBlocksFrom idx items).length = items.length := by
  induction items generalizing idx with
  | nil => rfl
  | cons it rest ih => simp [lineBlocksFrom, ih]

theorem monetaryTextsList_lineBlocksFrom (idx : ℕ) (items : List Item) :
    monetaryTextsList (lineBlocksFrom idx items) = items.map (fun it => fmt2 it.price) := by
  induction items generalizing idx with
  | nil => rfl
  | cons it rest ih =>
    simp +decide [lineBlocksFrom, XElem.monetaryTexts, monetaryTextsList, lineBlock,
      textElem, monetaryLocals, ih]

theorem monetaryTextsList_append (a b : List XElem) :
    monetaryTextsList (a ++ b) = monetaryTextsList a ++ monetaryTextsList b := by
  induction a with
  | nil => rfl
  | cons c cs ih => simp [monetaryTextsList, ih]

theorem monetaryTexts_buildTree (invoice : InvoiceData) :
    (buildTree invoice).monetaryTexts =
      invoice.items.map (fun it => fmt2 it.price) ++
        [fmt2 invoice.tax_amount, fmt2 (qsub invoice.total_amount invoice.tax_amount)] := by
  simp +decide [buildTree, contextBlock, headerBlock, agreementBlock, transactionBlock,
    settlementBlock, taxBlock, paymentTermsBlock, textElem, XElem.monetaryTexts,
    monetaryTextsList, monetaryTextsList_append, monetaryTextsList_lineBlocksFrom,
    monetaryLocals, schemaLocationAttr]

theorem lineBlocksFrom_congr (idx : ℕ) {xs ys : List Item}
    (h : xs.map Item.xmlView = ys.map Item.xmlView) :
    lineBlocksFrom idx xs = lineBlocksFrom idx ys := by
  induction xs generalizing ys idx with
  | nil =>
    cases ys with
    | nil => rfl
    | cons y ys => simp at h
  | cons x xs ih =>
    cases ys with
    | nil => simp at h
    | cons y ys =>
      simp only [List.map_cons, List.cons.injEq] at h
      obtain ⟨hxy, ht⟩ := h
      obtain ⟨hd, hp⟩ := Prod.mk.injEq .. |>.mp hxy
      rw [lineBlocksFrom, lineBlocksFrom, ih (idx + 1) ht, lineBlock, lineBlock, hd, hp]

/-- C4: for every invoice, the generated tree carries its mandatory blocks
in the fixed schema order: document context, then document header, then
the transaction holding the trade agreement (seller before buyer), then
one block per line item, then the settlement block in which the tax
sub-block precedes the payment-terms sub-block. -/
theorem claim_C4_schema_order (invoice : InvoiceData) :
    (buildTree invoice).children = [contextBlock, headerBlock invoice, transactionBlock invoice]
    ∧ (buildTree invoice).children.map (fun e => e.name.localName) =
        ["ExchangedDocumentContext", "ExchangedDocument", "SupplyChainTradeTransaction"]
    ∧ (transactionBlock invoice).children =
        agreementBlock invoice :: (lineBlocksFrom 1 invoice.items ++ [settlementBlock invoice])
    ∧ (transactionBlock invoice).children.map (fun e => e.name.localName) =
        "ApplicableHeaderTradeAgreement" ::
          (invoice.items.map (fun _ => "IncludedSupplyChainTradeLineItem") ++
            ["ApplicableHeaderTradeSettlement"])
    ∧ (agreementBlock invoice).children.map (fun e => e.name.localName) =
        ["SellerTradeParty", "BuyerTradeParty"]
    ∧ (settlementBlock invoice).children.map (fun e => e.name.localName) =
        ["TaxCurrencyCode", "ApplicableTradeTax", "SpecifiedTradePaymentTerms"] := by
  refine ⟨rfl, rfl, rfl, ?_, rfl, rfl⟩
  simp only [transactionBlock, XElem.children, List.map_cons, List.map_append,
    lineBlocksFrom_map_localName]
  rfl

/-- C5: for every invoice, the i-th line-item block (sitting at position
i + 1 of the transaction children, after the trade agreement) carries the
line identifier `str(i + 1)`, derived from the position alone and
independent of the item data; three items always yield "1", "2", "3". -/
theorem claim_C5_line_identifiers (invoice : InvoiceData) :
    (∀ i, i < invoice.items.length →
        ((transactionBlock invoice).children[i + 1]?).bind lineIdOf =
          some (natDecimal (i + 1)))
    ∧ (invoice.items.length = 3 →
        (lineBlocksFrom 1 invoice.items).map lineIdOf = [some "1", some "2", some "3"])
    ∧ ∀ idx a b, lineIdOf (lineBlock idx a) = lineIdOf (lineBlock idx b) := by
  refine ⟨?_, ?_, ?_⟩
  · intro i hi
    have hlt : i < (lineBlocksFrom 1 invoice.items).length := by
      rw [lineBlocksFrom_length]; exact hi
    have hid := lineBlocksFrom_lineId invoice.items 1 i hi
    simp only [transactionBlock, XElem.children, List.getElem?_cons_succ]
    rw [List.getElem?_append_left hlt]
    simpa [Nat.add_comm] using hid
  · intro h3
    obtain ⟨a, b, c, habc⟩ := List.length_eq_three.mp h3
    rw [habc]
    simp only [lineBlocksFrom, List.map_cons, List.map_nil, lineIdOf, lineBlock,
      XElem.children, List.head?_cons, Option.bind_some, textElem, XElem.text]
    decide
  · intro idx a b
    rfl

/-- Witness for C5 at concrete requests: the first line block of the
one-item scenario request carries identifier "1", and the three-item
request yields identifiers "1", "2", "3". -/
theorem claim_C5_line_identifiers_witness :
    ((transactionBlock invConsulting).children[0 + 1]?).bind lineIdOf =
      some (natDecimal (0 + 1))
    ∧ (lineBlocksFrom 1 invThreeItems.items).map lineIdOf =
        [some "1", some "2", some "3"] := by
  constructor
  · exact (claim_C5_line_identifiers invConsulting).1 0 (by decide)
  · exact (claim_C5_line_identifiers invThreeItems).2.1 (by decide)

/-- C10: two requests that agree on everything `generate_zugferd_xml`
reads — that is, differ at most in `vat_id` and in item quantities —
produce identical XML output. -/
theorem claim_C10_vat_qty_noninterference (a b : InvoiceData)
    (h : a.xmlView = b.xmlView) :
    generate_zugferd_xml a = generate_zugferd_xml b := by
  simp only [InvoiceData.xmlView, Prod.mk.injEq] at h
  obtain ⟨h1, h2, h3, h4, h5, h6, h7, h8, h9⟩ := h
  have htree : buildTree a = buildTree b := by
    simp only [buildTree, headerBlock, agreementBlock, transactionBlock, settlementBlock,
      taxBlock, paymentTermsBlock, h1, h2, h3, h4, h5, h6, h8, h9,
      lineBlocksFrom_congr 1 h7]
  rw [generate_zugferd_xml, generate_zugferd_xml, htree]

/-- Witness for C10: the two concrete requests differ in `vat_id` and in
the quantity of their line item, yet serialize to the same XML. -/
theorem claim_C10_vat_qty_noninterference_witness :
    invVatQtyA.vat_id ≠ invVatQtyB.vat_id
    ∧ invVatQtyA.items.map (fun it => it.quantity) ≠
        invVatQtyB.items.map (fun it => it.quantity)
    ∧ generate_zugferd_xml invVatQtyA = generate_zugferd_xml invVatQtyB :=
  ⟨by decide, by decide, claim_C10_vat_qty_noninterference invVatQtyA invVatQtyB rfl⟩

/-- C6: for every invoice, the tax sub-block carries the calculated
amount `tax_amount` and the basis amount `total_amount - tax_amount` as
two-fraction-digit decimal strings, the type code `VAT`, the category
code `S` and the rate as the two-fraction-digit percentage string
`19.00`; it sits between the currency code and the payment terms in the
settlement block, and every monetary amount in the document has exactly
two fraction digits. -/
theorem claim_C6_tax_amounts (invoice : InvoiceData) :
    (taxBlock invoice).children.map (fun e => (e.name.localName, e.text)) =
      [("CalculatedAmount", some (fmt2 invoice.tax_amount)),
       ("TypeCode", some "VAT"),
       ("BasisAmount", some (fmt2 (invoice.total_amount - invoice.tax_amount))),
       ("CategoryCode", some "S"),
       ("RateApplicablePercent", some "19.00")]
    ∧ (settlementBlock invoice).children =
        [textElem nsRAM "TaxCurrencyCode" "EUR", taxBlock invoice, paymentTermsBlock invoice]
    ∧ TwoFracDigits "19.00"
    ∧ ∀ s ∈ (buildTree invoice).monetaryTexts, TwoFracDigits s := by
  refine ⟨?_, rfl, ?_, ?_⟩
  · simp [taxBlock, textElem, XElem.children, XElem.name, XElem.text, qsub_eq]
  · exact ⟨"19", '0', '0', by decide, by decide, by decide, by decide⟩
  · intro s hs
    rw [monetaryTexts_buildTree] at hs
    rcases List.mem_append.mp hs with hmap | htail
    · obtain ⟨it, _, rfl⟩ := List.mem_map.mp hmap
      exact twoFracDigits_fmt2 _
    · simp only [List.mem_cons, List.not_mem_nil, or_false] at htail
      rcases htail with rfl | rfl
      · exact twoFracDigits_fmt2 _
      · exact twoFracDigits_fmt2 _

/-- Witness for C6: the price amount of the scenario request is rendered
with exactly two fraction digits. -/
theorem claim_C6_tax_amounts_witness : TwoFracDigits (fmt2 (100 : ℚ)) :=
  (claim_C6_tax_amounts invConsulting).2.2.2 (fmt2 (100 : ℚ)) (by decide)

/-- C1 (code bug): at the claim's own boundary input — total 100.00 with
supplied tax 19.01 — the running program rejects the request although the
claim requires it to be accepted.  `fp019`, `fp1901` and `fp001` are the
exact values of the binary64 doubles the program holds.  At runtime
`100.00 * 0.19` rounds to exactly the double `19.0` and Python rounds it
at two decimals to `19.0`, so the recomputed expected tax is 19; the
first conjunct checks that the exact decimal rounding of `100 * fp019`
is 19 as well.  The stored double for 19.01 lies strictly above the
decimal `1901/100` (second conjunct); the binary64 subtraction of `19.0`
from it is exact, because both operands and their difference are
representable, and its absolute value exceeds the double `0.01` (third
conjunct) — so the program takes the rejection branch.  Over the true
decimal amounts, as the claim states them, the difference is exactly
`0.01` and does not exceed the tolerance (fourth conjunct): the claim is
right and the code is wrong at this input. -/
theorem claim_C1_tax_boundary_bug :
    pyRound2 (qmul 100 fp019) = 19
    ∧ mkRat 1901 100 < fp1901
    ∧ fp001 < qabs (qsub fp1901 19)
    ∧ ¬ (1 / 100 < |invTax1901.tax_amount - expected_tax invTax1901|) := by
  refine ⟨by decide, by decide, by decide, ?_⟩
  intro hr
  exact (by decide :
      ¬ mkRat 1 100 < qabs (qsub invTax1901.tax_amount (expected_tax invTax1901)))
    ((taxCond_iff invTax1901).mpr hr)

/-- C2 (code bug): on the spec scenario request with `tax_amount = 10.00`
the tax check fails and no document or container is produced, but the
`except Exception` handler re-raises the endpoint's own 400
`HTTPException` as a 500, so the caller receives a server error instead
of the client error the code itself constructs. -/
theorem claim_C2_classification_bug :
    generate_validated_invoice invTaxTen =
      .error (500, "400: Tax amount mismatch. Expected €22.61 for 19% VAT")
    ∧ errStatus (generate_validated_invoice invTaxTen) = some 500
    ∧ isClientError 500 = false := by
  exact ⟨by decide, by decide, by decide⟩

/-- C3 (amended): every successfully packed container holds exactly one
embedded attachment, under the fixed name `ZUGFeRD-invoice.xml` with MIME
type `text/xml`, whose bytes are the XML serializer output for the same
invoice; no associated-file relationship is recorded for it, because the
`embfile_add` call passes none.  (The claim's relationship `"Data"` part
is refuted by the counterexample.) -/
theorem claim_C3_attachment (invoice : InvoiceData) (c : PdfContainer)
    (h : generate_pdf_with_zugferd invoice = .ok c) :
    ∃ xml, generate_zugferd_xml invoice = .ok xml ∧
      c.attachments =
        [{ name := "ZUGFeRD-invoice.xml", data := xml,
           filename := "/ZUGFeRD-invoice.xml", ufilename := "/ZUGFeRD-invoice.xml",
           desc := "ZUGFeRD 2.1 Basic Invoice", mime := "text/xml",
           afRelationship := none }] := by
  rw [generate_pdf_with_zugferd] at h
  cases hx : generate_zugferd_xml invoice with
  | error e =>
    rw [hx] at h
    exact absurd h (by simp)
  | ok xml =>
    rw [hx] at h
    refine ⟨xml, rfl, ?_⟩
    have hc := Except.ok.inj h
    rw [← hc]
    rfl

/-- Witness for C3: the scenario request packs successfully and its
container carries exactly the expected single attachment. -/
theorem claim_C3_attachment_witness :
    ∃ xml, generate_zugferd_xml invConsulting = .ok xml ∧
      pdfConsulting.attachments =
        [{ name := "ZUGFeRD-invoice.xml", data := xml,
           filename := "/ZUGFeRD-invoice.xml", ufilename := "/ZUGFeRD-invoice.xml",
           desc := "ZUGFeRD 2.1 Basic Invoice", mime := "text/xml",
           afRelationship := none }] :=
  claim_C3_attachment invConsulting pdfConsulting rfl

/-- Counterexample to C3 as stated: the scenario request packs
successfully, but the attachment of the resulting container has no
associated-file relationship at all — in particular not `"Data"`. -/
theorem claim_C3_attachment_counterexample :
    generate_pdf_with_zugferd invConsulting = .ok pdfConsulting
    ∧ pdfConsulting.attachments.map (fun a => a.afRelationship) ≠ [some "Data"] :=
  ⟨rfl, by decide⟩

/-- C7 (amended): beyond the request model's type checks, the only
validation the endpoint performs before document construction is the
tax-consistency check; every request that passes it (and whose text is
XML-safe, so that serialization succeeds) is accepted, regardless of
empty required strings, an empty item list, negative prices,
non-positive quantities, unparseable dates or a due date before the
issue date.  (The claimed rejections are refuted by the
counterexample.) -/
theorem claim_C7_validation (d : InvoiceData)
    (htax : ¬ 1 / 100 < |d.tax_amount - expected_tax d|)
    (hsafe : (buildTree d).allTexts.all stringXmlSafe = true) :
    ∃ r, generate_validated_invoice d = .ok r := by
  have hb : ¬ mkRat 1 100 < qabs (qsub d.tax_amount (expected_tax d)) :=
    fun hc => htax ((taxCond_iff d).mp hc)
  have hx : generate_zugferd_xml d = .ok (serializeDoc (buildTree d)) := by
    rw [generate_zugferd_xml, if_pos hsafe]
  have hpdf : ∃ p, generate_pdf_with_zugferd d = .ok p := by
    unfold generate_pdf_with_zugferd
    rw [hx]
    exact ⟨_, rfl⟩
  obtain ⟨p, hpdf⟩ := hpdf
  refine ⟨⟨p, "application/pdf",
    "attachment; filename=invoice_" ++ d.invoice_number ++ ".pdf"⟩, ?_⟩
  unfold generate_validated_invoice tryBlock
  rw [if_neg hb, hpdf]

/-- Witness for C7: the request violating every claimed field check is
accepted end to end. -/
theorem claim_C7_validation_witness :
    ∃ r, generate_validated_invoice invBadFields = .ok r :=
  claim_C7_validation invBadFields
    (fun hr => (by decide :
        ¬ mkRat 1 100 < qabs (qsub invBadFields.tax_amount (expected_tax invBadFields)))
      ((taxCond_iff invBadFields).mpr hr))
    (by decide)

/-- Counterexample to C7 as stated: a request with an empty customer
name, an unparseable issue date and an item with negative price and
non-positive quantity is accepted; so is a request with no items at all,
and one whose due date precedes its issue date. -/
theorem claim_C7_validation_counterexample :
    invBadFields.customer_name = ""
    ∧ invBadFields.invoice_date = "banana"
    ∧ invBadFields.items.map
        (fun it => (decide (it.price < 0), decide (it.quantity ≤ 0))) = [(true, true)]
    ∧ (generate_validated_invoice invBadFields).isOk = true
    ∧ invNoItems.items = []
    ∧ (generate_validated_invoice invNoItems).isOk = true
    ∧ invDueBeforeIssue.invoice_date = "2024-05-10"
    ∧ invDueBeforeIssue.due_date = "2020-01-01"
    ∧ (generate_validated_invoice invDueBeforeIssue).isOk = true := by
  exact ⟨rfl, rfl, by decide, by decide, rfl, by decide, rfl, rfl, by decide⟩

/-- C8 (amended): a request whose text contains a character outside the
XML range is rejected during XML generation with the invalid-character
`ValueError`, but the blanket exception handler reports it with status
500 — a server error, not the client error the claim asserts.  (The
client-error part is refuted by the counterexample.) -/
theorem claim_C8_control_chars (d : InvoiceData)
    (htax : ¬ 1 / 100 < |d.tax_amount - expected_tax d|)
    (hbad : (buildTree d).allTexts.all stringXmlSafe = false) :
    generate_validated_invoice d = .error (500, lxmlCharMsg)
    ∧ errStatus (generate_validated_invoice d) = some 500
    ∧ isClientError 500 = false := by
  have hb : ¬ mkRat 1 100 < qabs (qsub d.tax_amount (expected_tax d)) :=
    fun hc => htax ((taxCond_iff d).mp hc)
  have hx : generate_zugferd_xml d = .error lxmlCharMsg := by
    rw [generate_zugferd_xml, if_neg (by rw [hbad]; exact Bool.false_ne_true)]
  have hmain : generate_validated_invoice d = .error (500, lxmlCharMsg) := by
    unfold generate_validated_invoice tryBlock generate_pdf_with_zugferd
    rw [if_neg hb, hx]
    rfl
  exact ⟨hmain, by rw [hmain]; rfl, rfl⟩

/-- Witness for C8: the request with `U+0001` in the customer name is
rejected with the invalid-character message and status 500. -/
theorem claim_C8_control_chars_witness :
    generate_validated_invoice invCtrlChar = .error (500, lxmlCharMsg)
    ∧ errStatus (generate_validated_invoice invCtrlChar) = some 500
    ∧ isClientError 500 = false :=
  claim_C8_control_chars invCtrlChar
    (fun hr => (by decide :
        ¬ mkRat 1 100 < qabs (qsub invCtrlChar.tax_amount (expected_tax invCtrlChar)))
      ((taxCond_iff invCtrlChar).mpr hr))
    (by decide)

/-- Counterexample to C8 as stated: the control-character request is
rejected, but with status 500, which is not in the client-error class. -/
theorem claim_C8_control_chars_counterexample :
    invCtrlChar.customer_name.data.all xmlSafeChar = false
    ∧ errStatus (generate_validated_invoice invCtrlChar) = some 500
    ∧ isClientError 500 = false := by
  exact ⟨by decide, by decide, by decide⟩

theorem serializeDoc_buildTree_decomp (invoice : InvoiceData) :
    ∃ rest : List Char,
      (serializeDoc (buildTree invoice)).data = docOpenString.data ++ rest := by
  refine ⟨(serializeList 1 [contextBlock, headerBlock invoice, transactionBlock invoice] ++
    (indentStr 0 ++ ("</" ++ (renderQName ⟨nsRSM, "CrossIndustryInvoice"⟩ ++ ">\n")))).data, ?_⟩
  rw [serializeDoc, buildTree]
  simp only [serializeElem]
  simp [docOpenString, string_data_append, List.append_assoc]

set_option maxRecDepth 10000 in
/-- C9: serialization is deterministic — the same invoice always yields
the same bytes — and the output begins with the explicit single-quoted
UTF-8 XML declaration and binds every namespace of the fixed prefix map
`NSMAP` with its fixed prefix in every generated document. -/
theorem claim_C9_deterministic_serialization (invoice : InvoiceData) (out : String)
    (h : generate_zugferd_xml invoice = .ok out) :
    (∀ out2, generate_zugferd_xml invoice = .ok out2 → out2 = out)
    ∧ (∃ rest, out = xmlDeclaration ++ rest)
    ∧ ∀ p u, (p, u) ∈ NSMAP →
        ("xmlns:" ++ p ++ "=\x22" ++ u ++ "\x22").data <:+: out.data := by
  have hout : out = serializeDoc (buildTree invoice) := by
    rw [generate_zugferd_xml] at h
    by_cases hc : (buildTree invoice).allTexts.all stringXmlSafe
    · rw [if_pos hc] at h
      exact (Except.ok.inj h).symm
    · rw [if_neg hc] at h
      exact absurd h (by simp)
  subst hout
  refine ⟨?_, ⟨_, rfl⟩, ?_⟩
  · intro out2 h2
    rw [h] at h2
    exact (Except.ok.inj h2).symm
  · intro p u hmem
    obtain ⟨rest, hdecomp⟩ := serializeDoc_buildTree_decomp invoice
    rw [hdecomp]
    simp only [NSMAP, List.mem_cons, List.not_mem_nil, or_false, Prod.mk.injEq] at hmem
    rcases hmem with ⟨rfl, rfl⟩ | ⟨rfl, rfl⟩ | ⟨rfl, rfl⟩ | ⟨rfl, rfl⟩
    · exact isInfix_append_ext (by decide) rest
    · exact isInfix_append_ext (by decide) rest
    · exact isInfix_append_ext (by decide) rest
    · exact isInfix_append_ext (by decide) rest

set_option maxRecDepth 10000 in
/-- Witness for C9 at the scenario request: its serialized document binds
the document namespace to the prefix `rsm`. -/
theorem claim_C9_deterministic_serialization_witness :
    ("xmlns:" ++ "rsm" ++ "=\x22" ++ nsRSM ++ "\x22").data <:+:
      (serializeDoc (buildTree invConsulting)).data :=
  (claim_C9_deterministic_serialization invConsulting
    (serializeDoc (buildTree invConsulting)) rfl).2.2 "rsm" nsRSM (by decide)
